import Mathlib

/-
Verification of the chatBackend bootstrap (setupDatabase, app.ts initialize,
ChattyServer of setupServer.ts) against its specification, via a shallow
embedding of the three source files.  Asynchronous connection attempts are
modelled by an explicit result oracle (a promise either resolves or rejects);
the node event loop's freedom to order independent settlements is modelled by
an explicit scheduling choice.
-/

namespace ChatBackend

/-- Outcome of one asynchronous connection attempt: the underlying promise
either resolves (ok) or rejects (err). -/
inductive ConnectResult where
  | ok
  | err
deriving DecidableEq, Repr

/-- A bunyan log entry, informational or error. -/
inductive LogEntry where
  | info (msg : String)
  | error (msg : String)
deriving DecidableEq, Repr

/-- Modelled from the spec: the config module is not under src/.  It only
supplies opaque address strings; the claims depend on the identity of these
values, never on their content. -/
structure Config where
  DATABASE_URL : String
  REDIS_HOST : String
  CLIENT_URL : String
deriving DecidableEq, Repr

def config : Config :=
  { DATABASE_URL := "mongodb://localhost/chatty"
  , REDIS_HOST := "redis://localhost:6379"
  , CLIENT_URL := "http://localhost:3000" }

/-! ## Storage Connection Manager (setupDatabase, src/unnamed/part_000)

databaseConnection defines a local connect() that calls mongoose.connect:
its then-branch logs success, its catch-branch logs an error and calls
process.exit(1).  connect() is invoked once at boot, and the very same
connect closure is registered as the handler for the driver's
disconnected event. -/

/-- Observable state of the storage connection manager after a successful
boot: how many reconnect attempts the disconnected handler has issued, the
log entries those attempts produced (post-boot entries only), and whether
process.exit was called, with which code. -/
structure DbState where
  attempts : Nat
  log : List LogEntry
  exited : Option Nat
deriving DecidableEq, Repr

/-- State immediately after a successful boot: no reconnect attempts yet,
no post-boot log entries, process alive. -/
def dbBootOk : DbState := { attempts := 0, log := [], exited := none }

/-- One disconnect event as handled by setupDatabase: while the process is
alive, the registered handler re-invokes connect(), which issues exactly one
connection attempt whose promise either resolves (log success) or rejects
(log error, then process.exit(1)).  The oracle r is the result of that
attempt.  Events delivered after the process exited do nothing.  The model
assumes each attempt settles before the next disconnect event is observed
(reconnect attempts are serialized). -/
def handleDisconnect (s : DbState) (r : ConnectResult) : DbState :=
  if s.exited.isSome then s
  else
    match r with
    | ConnectResult.ok =>
        { s with
          attempts := s.attempts + 1
          log := s.log ++ [LogEntry.info "Succesfully connected to database."] }
    | ConnectResult.err =>
        { s with
          attempts := s.attempts + 1
          log := s.log ++ [LogEntry.error "Error connecting to database"]
          exited := some 1 }

/-- A whole sequence of disconnect events, each paired (by the oracle list)
with the result of the reconnect attempt it triggers. -/
def runDisconnects (s : DbState) (rs : List ConnectResult) : DbState :=
  rs.foldl handleDisconnect s

/-! ## Startup events (app.ts initialize and ChattyServer of setupServer.ts)

The boot is traced as a list of atomic observable events.  The main flow of
initialize() runs synchronously from loadConfig up to the await of
Promise.all inside the socket.io setup; the mongoose settlement (then/catch
of the boot connect) and the redis settlement (Promise.all) are pending
continuations the event loop may run in either order once the main flow has
suspended. -/

/-- Atomic observable events of the startup sequence. -/
inductive Ev where
  | loadConfigEv
  | mongoConnectStart
  | mongoLogOk
  | mongoLogErr
  | processExitEv (code : Nat)
  | middlewareSetup
  | httpServerConstruct
  | socketServerConstruct
  | pubConnectStart
  | subConnectStart
  | redisSettled
  | adapterAttach
  | listenBind
  | logStartupError
deriving DecidableEq, Repr

/-- A redis client handle as produced by createClient: identified by an id
(distinct handles get distinct ids) and the broker url it targets. -/
structure RedisClient where
  id : Nat
  url : String
deriving DecidableEq, Repr

/-- createClient of the redis package: a fresh client handle for the url. -/
def createClient (url : String) : RedisClient := { id := 0, url := url }

/-- duplicate of a RedisClient: a new, distinct client handle created with
the same options, hence the same target url. -/
def RedisClient.duplicate (c : RedisClient) : RedisClient :=
  { c with id := c.id + 1 }

/-- The pubClient built in the socket.io setup: createClient at the
configured REDIS_HOST. -/
def pubClient : RedisClient := createClient config.REDIS_HOST

/-- The subClient built in the socket.io setup: pubClient.duplicate(). -/
def subClient : RedisClient := RedisClient.duplicate pubClient

/-- The socket.io Server as far as the claims observe it: its cors origin,
the attached adapter (the pub/sub redis client pair), and the event
handlers registered on it. -/
structure SocketIOServer where
  corsOrigin : String
  adapter : Option (RedisClient × RedisClient)
  handlers : List String
deriving DecidableEq, Repr

/-- The freshly constructed Server, before any adapter is attached. -/
def newSocketIOServer : SocketIOServer :=
  { corsOrigin := config.CLIENT_URL, adapter := none, handlers := [] }

/-- Method createSocketIO of ChattyServer (setupServer.ts lines 102-114):
constructs the Server, creates pubClient, duplicates it into subClient,
starts both connects, and awaits Promise.all of them.  If both resolve, the
redis adapter over the pair is installed and the Server is returned; if
either rejects, Promise.all rejects (fail-fast) and the method throws, so no
adapter is ever installed.  The trace records the order in which the
operations are initiated and settled. -/
def createSocketIO (pubRes subRes : ConnectResult) :
    List Ev × Except String SocketIOServer :=
  let startEvts := [Ev.socketServerConstruct, Ev.pubConnectStart, Ev.subConnectStart]
  match pubRes, subRes with
  | ConnectResult.ok, ConnectResult.ok =>
      (startEvts ++ [Ev.redisSettled, Ev.adapterAttach],
       Except.ok { newSocketIOServer with adapter := some (pubClient, subClient) })
  | _, _ =>
      (startEvts ++ [Ev.redisSettled], Except.error "redis connect failed")

/-- The adapter held by the result of the socket.io setup, if any. -/
def bridgeAdapterOf : Except String SocketIOServer → Option (RedisClient × RedisClient)
  | Except.ok srv => srv.adapter
  | Except.error _ => none

/-- Whether the socket.io setup step completed successfully. -/
def bridgeOk : Except String SocketIOServer → Bool
  | Except.ok _ => true
  | Except.error _ => false

/-- Method socketIOConnections of ChattyServer (setupServer.ts line 125):
the per-connection hook point; its body is empty in the source, so it
registers nothing and returns the server state unchanged. -/
def socketIOConnections (s : SocketIOServer) : SocketIOServer := s

/-- Method startServer of ChattyServer (setupServer.ts lines 91-100): build
the http server, await the socket.io setup, then register connections and
bind the listener; any error thrown by the setup is caught and logged, and
process.exit is never called (the second component is the exit code, none
meaning the process keeps running). -/
def startServer (pubRes subRes : ConnectResult) : List Ev × Option Nat :=
  match createSocketIO pubRes subRes with
  | (evts, Except.ok _) =>
      (Ev.httpServerConstruct :: (evts ++ [Ev.listenBind]), none)
  | (evts, Except.error _) =>
      (Ev.httpServerConstruct :: (evts ++ [Ev.logStartupError]), none)

/-- Continuation of the boot-time mongoose.connect promise (setupDatabase):
its then-branch logs success; its catch-branch logs the error and calls
process.exit(1). -/
def mongoCont : ConnectResult → List Ev × Option Nat
  | ConnectResult.ok => ([Ev.mongoLogOk], none)
  | ConnectResult.err => ([Ev.mongoLogErr, Ev.processExitEv 1], some 1)

/-- Events of the main synchronous flow of initialize(): validateConfig,
databaseConnection (which initiates mongoose.connect and returns without
awaiting it), the express middleware/route/error-handler registration, then
startServer up to and including initiating both redis connects, at which
point the flow suspends on the Promise.all await. -/
def bootMainEvts : List Ev :=
  [Ev.loadConfigEv, Ev.mongoConnectStart, Ev.middlewareSetup,
   Ev.httpServerConstruct, Ev.socketServerConstruct,
   Ev.pubConnectStart, Ev.subConnectStart]

/-- Continuation run when the redis Promise.all settles: on success the
adapter is attached and the listener bound; on failure startServer's catch
logs the error. -/
def bootSettleEvts : ConnectResult → ConnectResult → List Ev
  | ConnectResult.ok, ConnectResult.ok =>
      [Ev.redisSettled, Ev.adapterAttach, Ev.listenBind]
  | _, _ => [Ev.redisSettled, Ev.logStartupError]

/-- A whole boot run of app.ts initialize() under the node event loop.
mongoRes is the result of the boot-time storage connect, pubRes and subRes
the results of the two redis connects.  After the main flow suspends, the
mongoose settlement and the redis settlement are both pending; mongoFirst
chooses which the event loop delivers first.  If the mongoose catch runs
process.exit(1), nothing runs after it.  Returns the event trace and the
exit code (none if the process keeps running). -/
def bootRun (mongoRes pubRes subRes : ConnectResult) (mongoFirst : Bool) :
    List Ev × Option Nat :=
  let m := mongoCont mongoRes
  if mongoFirst then
    match m.2 with
    | some c => (bootMainEvts ++ m.1, some c)
    | none => (bootMainEvts ++ m.1 ++ bootSettleEvts pubRes subRes, none)
  else
    (bootMainEvts ++ bootSettleEvts pubRes subRes ++ m.1, m.2)

/-- The trace of a fully successful boot, for either settlement order. -/
def bootOkTrace (mongoFirst : Bool) : List Ev :=
  (bootRun ConnectResult.ok ConnectResult.ok ConnectResult.ok mongoFirst).1

/-- Event a occurs strictly before event c in trace t. -/
abbrev before (t : List Ev) (a c : Ev) : Prop := t.indexOf a < t.indexOf c

/-! ## HTTP tail middleware (globalErrorHandler of setupServer.ts) -/

/-- An HTTP response as far as the claims observe it: status code and a
flat JSON object body (field/value pairs). -/
structure HttpResponse where
  status : Nat
  body : List (String × String)
deriving DecidableEq, Repr

namespace HTTP_STATUS

def NOT_FOUND : Nat := 404

end HTTP_STATUS

/-- The catch-all handler registered with app.all on pattern star
(setupServer.ts lines 78-80): responds 404 with a message built from the
request's originalUrl. -/
def notFoundHandler (originalUrl : String) : HttpResponse :=
  { status := HTTP_STATUS.NOT_FOUND
  , body := [("message", originalUrl ++ " not found")] }

/-- Tail of the middleware pipeline after the registered routes.  The routes
module is not under src/, so its outcome is abstracted: routeResult is the
response produced by a matching registered route, or none when no route
matched, in which case the request falls through to the catch-all. -/
def handleRequest (routeResult : Option HttpResponse) (originalUrl : String) :
    HttpResponse :=
  match routeResult with
  | some r => r
  | none => notFoundHandler originalUrl

/-- Modelled from the spec: class CustomError of the error-handler module,
which is not under src/.  Per the spec, an ApplicationError carries a
declared statusCode and a serializable body, and serializeErrors returns
that declared body. -/
structure CustomError where
  statusCode : Nat
  serializableBody : List (String × String)
deriving DecidableEq, Repr

def CustomError.serializeErrors (e : CustomError) : List (String × String) :=
  e.serializableBody

/-- An error reaching the trailing error middleware: either a known
CustomError or any other unhandled error. -/
inductive IErrorResponse where
  | customErr (e : CustomError)
  | unhandled (raw : String)
deriving DecidableEq, Repr

/-- Observable outcome of one pass through the trailing error middleware:
whether log.error ran, the response sent (none if no response was sent),
and whether the continuation next() was invoked. -/
structure ErrorMidOutcome where
  logged : Bool
  response : Option HttpResponse
  nextCalled : Bool
deriving DecidableEq, Repr

/-- The trailing error middleware of globalErrorHandler (setupServer.ts
lines 82-88): logs the error; when the error is a CustomError, sends its
declared status code with its serialized body; in every case it then calls
next(). -/
def errorMiddleware (e : IErrorResponse) : ErrorMidOutcome :=
  { logged := true
  , response :=
      match e with
      | IErrorResponse.customErr ce =>
          some { status := ce.statusCode, body := CustomError.serializeErrors ce }
      | IErrorResponse.unhandled _ => none
  , nextCalled := true }

/-! ## Helper lemmas -/

/-- Once the process has exited, further disconnect events change nothing. -/
theorem runDisconnects_frozen (s : DbState) (rs : List ConnectResult)
    (h : s.exited.isSome = true) : runDisconnects s rs = s := by
  induction rs with
  | nil => rfl
  | cons r rs ih =>
      show runDisconnects (handleDisconnect s r) rs = s
      have hs : handleDisconnect s r = s := by
        unfold handleDisconnect
        simp [h]
      rw [hs, ih]

/-- While every reconnect attempt succeeds, each disconnect event adds
exactly one attempt and one log entry, and the process stays alive. -/
theorem runDisconnects_all_ok (rs : List ConnectResult)
    (h : ∀ r ∈ rs, r = ConnectResult.ok) (s : DbState) (hs : s.exited = none) :
    (runDisconnects s rs).attempts = s.attempts + rs.length ∧
    (runDisconnects s rs).exited = none ∧
    (runDisconnects s rs).log.length = s.log.length + rs.length := by
  induction rs generalizing s with
  | nil => simp [runDisconnects, hs]
  | cons r rs ih =>
      have hr : r = ConnectResult.ok := h r (List.mem_cons_self r rs)
      have hrest : ∀ x ∈ rs, x = ConnectResult.ok := fun x hx => h x (List.mem_cons_of_mem r hx)
      subst hr
      have hstep : handleDisconnect s ConnectResult.ok =
          { attempts := s.attempts + 1
            log := s.log ++ [LogEntry.info "Succesfully connected to database."]
            exited := none } := by
        unfold handleDisconnect
        simp [hs]
      have hrun : runDisconnects s (ConnectResult.ok :: rs) =
          runDisconnects
            { attempts := s.attempts + 1
              log := s.log ++ [LogEntry.info "Succesfully connected to database."]
              exited := none } rs := by
        show runDisconnects (handleDisconnect s ConnectResult.ok) rs = _
        rw [hstep]
      rw [hrun]
      have := ih hrest
        { attempts := s.attempts + 1
          log := s.log ++ [LogEntry.info "Succesfully connected to database."]
          exited := none } rfl
      simpa [Nat.add_assoc, Nat.add_comm, Nat.add_left_comm] using this

/-- The startServer trace is the synchronous part of the boot main flow
followed by the settlement continuation: the whole-boot model and the
per-method model agree. -/
theorem startServer_trace_consistent (p s : ConnectResult) :
    (startServer p s).1 =
      [Ev.httpServerConstruct, Ev.socketServerConstruct,
       Ev.pubConnectStart, Ev.subConnectStart] ++ bootSettleEvts p s ∧
    (startServer p s).2 = none := by
  cases p <;> cases s <;> exact ⟨rfl, rfl⟩

/-! ## Claims -/

/-- C1 (counterexample): a reconnect attempt after a successful boot CAN
terminate the process — a single disconnect event whose reconnect attempt
fails makes the registered handler run the catch-branch of connect(), which
calls process.exit(1); and after that exit a further disconnect event no
longer yields an attempt, so two events produce only one attempt. -/
theorem reconnect_fatal_counterexample :
    (runDisconnects dbBootOk [ConnectResult.err]).exited = some 1 ∧
    (runDisconnects dbBootOk [ConnectResult.err, ConnectResult.ok]).attempts = 1 := by
  constructor <;> rfl

/-- C1 (amended): every disconnect event observed while the process is alive
triggers exactly one reconnect attempt, and each attempt logs its own
success or failure; while all attempts succeed there are exactly as many
attempts as events and the process stays alive, but a failed reconnect
attempt logs the error and terminates the process with exit code 1 (the
same fatal path as the boot-time connect), after which no further attempts
are issued. -/
theorem reconnect_per_event (pre post : List ConnectResult)
    (hpre : ∀ r ∈ pre, r = ConnectResult.ok) :
    (runDisconnects dbBootOk pre).attempts = pre.length ∧
    (runDisconnects dbBootOk pre).exited = none ∧
    (runDisconnects dbBootOk pre).log.length = pre.length ∧
    (runDisconnects dbBootOk (pre ++ ConnectResult.err :: post)).exited = some 1 ∧
    (runDisconnects dbBootOk (pre ++ ConnectResult.err :: post)).attempts = pre.length + 1 := by
  obtain ⟨ha, he, hl⟩ := runDisconnects_all_ok pre hpre dbBootOk rfl
  have hsplit : runDisconnects dbBootOk (pre ++ ConnectResult.err :: post) =
      runDisconnects (handleDisconnect (runDisconnects dbBootOk pre) ConnectResult.err) post := by
    unfold runDisconnects
    rw [List.foldl_append]
    rfl
  have hstep : handleDisconnect (runDisconnects dbBootOk pre) ConnectResult.err =
      { attempts := (runDisconnects dbBootOk pre).attempts + 1
        log := (runDisconnects dbBootOk pre).log ++
          [LogEntry.error "Error connecting to database"]
        exited := some 1 } := by
    unfold handleDisconnect
    simp [he]
  have hfrozen := runDisconnects_frozen
    { attempts := (runDisconnects dbBootOk pre).attempts + 1
      log := (runDisconnects dbBootOk pre).log ++
        [LogEntry.error "Error connecting to database"]
      exited := some 1 } post rfl
  refine ⟨by simpa [dbBootOk] using ha, he, by simpa [dbBootOk] using hl, ?_, ?_⟩
  · rw [hsplit, hstep, hfrozen]
  · rw [hsplit, hstep, hfrozen]
    simpa [dbBootOk] using ha

/-- C1 (witness): the amended claim at one successful reconnect followed by
a failing one. -/
theorem reconnect_per_event_witness :
    (runDisconnects dbBootOk [ConnectResult.ok]).attempts = 1 ∧
    (runDisconnects dbBootOk [ConnectResult.ok]).exited = none ∧
    (runDisconnects dbBootOk [ConnectResult.ok]).log.length = 1 ∧
    (runDisconnects dbBootOk ([ConnectResult.ok] ++ ConnectResult.err :: [])).exited = some 1 ∧
    (runDisconnects dbBootOk ([ConnectResult.ok] ++ ConnectResult.err :: [])).attempts = 1 + 1 :=
  reconnect_per_event [ConnectResult.ok] []
    (fun _ hr => List.mem_singleton.mp hr)

/-- C2: the socket.io setup initiates both broker connects before awaiting
their joint settlement (concurrent opens), completes successfully exactly
when both connects succeed, attaches the adapter exactly in that case, and
otherwise yields no adapter at all (all-or-nothing, no partial bridge): the
adapter is either absent or the full pub/sub pair. -/
theorem bridge_all_or_nothing (p s : ConnectResult) :
    (bridgeOk ( createSocketIO p s).2 = true ↔
      (p = ConnectResult.ok ∧ s = ConnectResult.ok)) ∧
    (Ev.adapterAttach ∈ ( createSocketIO p s).1 ↔
      (p = ConnectResult.ok ∧ s = ConnectResult.ok)) ∧
    bridgeAdapterOf ( createSocketIO p s).2 =
      (if p = ConnectResult.ok ∧ s = ConnectResult.ok
        then some (pubClient, subClient) else none) ∧
    before ( createSocketIO p s).1 Ev.pubConnectStart Ev.redisSettled ∧
    before ( createSocketIO p s).1 Ev.subConnectStart Ev.redisSettled := by
  cases p <;> cases s <;> decide

/-- C3 (counterexample): a run in which the initial storage connect fails
but the redis settlement is delivered first does bind the listener before
the process exits with code 1, so the listener is not never-bound. -/
theorem storage_fail_listener_counterexample :
    (bootRun ConnectResult.err ConnectResult.ok ConnectResult.ok false).2 = some 1 ∧
    Ev.listenBind ∈ (bootRun ConnectResult.err ConnectResult.ok ConnectResult.ok false).1 := by
  constructor <;> decide

/-- C3 (amended): whenever the initial storage connect fails the process
terminates with exit code 1, whatever the redis outcome and settlement
order; and when the storage failure settles before the bridge setup, the
listener is never bound. -/
theorem storage_fail_exit_one (p s : ConnectResult) (b : Bool) :
    (bootRun ConnectResult.err p s b).2 = some 1 ∧
    (b = true → Ev.listenBind ∉ (bootRun ConnectResult.err p s b).1) := by
  cases p <;> cases s <;> cases b <;> exact ⟨by decide, by decide⟩

/-- C3 (witness): the amended claim with both redis connects succeeding and
the storage failure settling first. -/
theorem storage_fail_exit_one_witness :
    (bootRun ConnectResult.err ConnectResult.ok ConnectResult.ok true).2 = some 1 ∧
    Ev.listenBind ∉ (bootRun ConnectResult.err ConnectResult.ok ConnectResult.ok true).1 :=
  ⟨(storage_fail_exit_one ConnectResult.ok ConnectResult.ok true).1,
   (storage_fail_exit_one ConnectResult.ok ConnectResult.ok true).2 rfl⟩

/-- C4: whenever either broker connect fails, startServer's catch logs the
error, process.exit is not called, the adapter is never attached, and the
listener bind is never reached. -/
theorem bridge_fail_no_listen (p s : ConnectResult)
    (h : p = ConnectResult.err ∨ s = ConnectResult.err) :
    (startServer p s).2 = none ∧
    Ev.logStartupError ∈ (startServer p s).1 ∧
    Ev.adapterAttach ∉ (startServer p s).1 ∧
    Ev.listenBind ∉ (startServer p s).1 := by
  cases p <;> cases s <;> first
    | (exact absurd h (by decide))
    | exact ⟨by decide, by decide, by decide, by decide⟩

/-- C4 (witness): the claim at a failing publish-side connect with a
succeeding subscribe-side connect. -/
theorem bridge_fail_no_listen_witness :
    (startServer ConnectResult.err ConnectResult.ok).2 = none ∧
    Ev.logStartupError ∈ (startServer ConnectResult.err ConnectResult.ok).1 ∧
    Ev.adapterAttach ∉ (startServer ConnectResult.err ConnectResult.ok).1 ∧
    Ev.listenBind ∉ (startServer ConnectResult.err ConnectResult.ok).1 :=
  bridge_fail_no_listen ConnectResult.err ConnectResult.ok (Or.inl rfl)

/-- C5: a request matched by no registered route reaches the catch-all and
is answered with status 404 and the JSON body whose message is the original
requested path followed by " not found", verbatim. -/
theorem unmatched_route_404 (url : String) :
    handleRequest none url =
      { status := 404, body := [("message", url ++ " not found")] } := rfl

/-- C6: a CustomError reaching the trailing error middleware with declared
statusCode sc and serializable body b is answered with status sc and body
exactly b. -/
theorem custom_error_serialized (sc : Nat) (b : List (String × String)) :
    (errorMiddleware (IErrorResponse.customErr
        { statusCode := sc, serializableBody := b })).response =
      some { status := sc, body := b } := rfl

/-- C7 (counterexample): in a fully successful boot with the redis
settlement delivered first, step 2 (middleware setup) begins before step
1's storage connect has resolved — the resolution does occur in the trace,
but only later — so the steps are not suspension-sequential as claimed. -/
theorem steps_sequential_counterexample :
    Ev.mongoLogOk ∈ bootOkTrace false ∧
    before (bootOkTrace false) Ev.middlewareSetup Ev.mongoLogOk := by
  constructor <;> decide

/-- C7 (amended): the six startup steps are initiated in order, steps 2-6
run strictly sequentially with step 5's suspension (the joint redis
settlement) resolving before step 6's listener bind, and the two broker
connects inside step 5 are both initiated before that settlement; step 1
however is fire-and-forget: it is initiated before step 2 but its
resolution is not awaited and lands only after the main flow has suspended,
in every settlement order. -/
theorem startup_order (b : Bool) :
    before (bootOkTrace b) Ev.mongoConnectStart Ev.middlewareSetup ∧
    before (bootOkTrace b) Ev.middlewareSetup Ev.httpServerConstruct ∧
    before (bootOkTrace b) Ev.httpServerConstruct Ev.socketServerConstruct ∧
    before (bootOkTrace b) Ev.socketServerConstruct Ev.pubConnectStart ∧
    before (bootOkTrace b) Ev.pubConnectStart Ev.subConnectStart ∧
    before (bootOkTrace b) Ev.subConnectStart Ev.redisSettled ∧
    before (bootOkTrace b) Ev.redisSettled Ev.adapterAttach ∧
    before (bootOkTrace b) Ev.adapterAttach Ev.listenBind ∧
    Ev.mongoLogOk ∈ bootOkTrace b ∧
    before (bootOkTrace b) Ev.middlewareSetup Ev.mongoLogOk := by
  cases b <;> decide

/-- C8: the bridge holds two distinct broker client handles, one for
publishing and one for subscribing, both targeting the configured broker
address; and whatever the connect outcomes, the attached adapter is either
absent or exactly that unmerged pair of distinct handles. -/
theorem bridge_two_handles :
    pubClient ≠ subClient ∧
    pubClient.url = config.REDIS_HOST ∧
    subClient.url = config.REDIS_HOST ∧
    bridgeAdapterOf ( createSocketIO ConnectResult.ok ConnectResult.ok).2 =
      some (pubClient, subClient) ∧
    (∀ p s, bridgeAdapterOf ( createSocketIO p s).2 = none ∨
      bridgeAdapterOf ( createSocketIO p s).2 = some (pubClient, subClient)) := by
  refine ⟨by decide, rfl, rfl, rfl, ?_⟩
  intro p s
  cases p <;> cases s <;> simp [ createSocketIO, bridgeAdapterOf]

/-- C9: the trailing error middleware invokes the continuation next() for
every error it receives, CustomError (response already sent) or not. -/
theorem error_middleware_always_next (e : IErrorResponse) :
    (errorMiddleware e).nextCalled = true := rfl

/-- C10: the session connect hook socketIOConnections is a no-op — it
registers no handlers and leaves the server state unchanged. -/
theorem connect_hook_noop (s : SocketIOServer) :
    socketIOConnections s = s ∧ (socketIOConnections s).handlers = s.handlers :=
  ⟨rfl, rfl⟩

end ChatBackend
